import Mathlib

/-!
Shallow embedding of `src/lib/classify.ts` from the visagist repository:
the model lifecycle manager (`loadModel`, `getModelStatus`, `isModelReady`),
the classification engine (`classifyImage`, `classifyImageBatch`) and the
decision algorithm (`determineMemeClassification`).

Scores are modelled as rationals; JavaScript exceptions are modelled with
`Except String`; the opaque inference backend is modelled by passing the
outcome of each backend call as an explicit parameter.
-/

namespace Visagist

/-- One `{label, score}` pair of a raw inference result. -/
structure LabeledScore where
  label : String
  score : ℚ
deriving Repr, DecidableEq

/-- The `ClassificationResult` interface (classify.ts lines 6-10). -/
structure ClassificationResult where
  isMeme : Bool
  confidence : ℚ
  inferenceTimeMs : ℚ
deriving Repr, DecidableEq

/-- The model identifier constant (classify.ts line 12). -/
def HUGGINGFACE_MODEL : String := "prettyirrelevant/meme-detector-onnx"

/-- The `modelStatus` enumeration (classify.ts line 15). -/
inductive ModelStatus where
  | loading
  | downloading
  | ready
  | error
deriving Repr, DecidableEq

/-- An opaque handle to a loaded pipeline (`ImageClassificationPipeline`). -/
structure Handle where
  id : Nat
deriving Repr, DecidableEq

/-- The module-level mutable state: `classifier` and `modelStatus`
(classify.ts lines 14-15). -/
structure ModelState where
  classifier : Option Handle
  modelStatus : ModelStatus
deriving Repr, DecidableEq

/-- Whether the first character list occurs at the start of the second. -/
def startsWithChars : List Char → List Char → Bool
  | [], _ => true
  | _ :: _, [] => false
  | a :: pat, b :: s => a == b && startsWithChars pat s

/-- Whether the first character list occurs contiguously anywhere in the
second (JavaScript `String.prototype.includes` on the underlying
characters). -/
def includesChars (pat : List Char) : List Char → Bool
  | [] => pat.isEmpty
  | b :: s => startsWithChars pat (b :: s) || includesChars pat s

/-- JavaScript `s.toLowerCase()`, modelled characterwise. -/
def jsToLower (s : String) : List Char := s.data.map Char.toLower

/-- JavaScript `s.toLowerCase().includes(pat)`. -/
def lowerIncludes (s pat : String) : Bool := includesChars pat.data (jsToLower s)

/-- The `find` for the meme class (classify.ts lines 212-215):
label contains "meme" (case-insensitively) and does not contain "not". -/
def findMemeResult (results : List LabeledScore) : Option LabeledScore :=
  results.find? fun r =>
    lowerIncludes r.label "meme" && !(lowerIncludes r.label "not")

/-- The `find` for the not-meme class (classify.ts lines 217-220):
label contains "not meme", or contains both "meme" and "not". -/
def findNotMemeResult (results : List LabeledScore) : Option LabeledScore :=
  results.find? fun r =>
    lowerIncludes r.label "not meme" ||
    (lowerIncludes r.label "meme" && lowerIncludes r.label "not")

/-- `memeResult?.score || 0.0` (classify.ts line 222). -/
def resolvedMemeScore (results : List LabeledScore) : ℚ :=
  match findMemeResult results with
  | some r => r.score
  | none => 0

/-- `notMemeResult?.score || 0.0` (classify.ts line 223). -/
def resolvedNotMemeScore (results : List LabeledScore) : ℚ :=
  match findNotMemeResult results with
  | some r => r.score
  | none => 0

/-- The three-branch decision rule of `determineMemeClassification`
(classify.ts lines 226-246), as a function of the two resolved scores. -/
def decideIsMeme (memeScore notMemeScore : ℚ) : Bool :=
  let winnerScore := max memeScore notMemeScore
  let margin := |memeScore - notMemeScore|
  let memeIsWinner := decide (memeScore > notMemeScore)
  let highConfidenceThreshold : ℚ := 0.8
  let lowConfidenceThreshold : ℚ := 0.6
  let smallMarginThreshold : ℚ := 0.3
  if winnerScore ≥ highConfidenceThreshold then
    memeIsWinner
  else if winnerScore < lowConfidenceThreshold then
    true
  else
    if margin < smallMarginThreshold then
      true
    else
      memeIsWinner

/-- `determineMemeClassification` (classify.ts lines 209-252): resolves the
two class scores from the raw result and returns `(isMeme, confidence)`. -/
def determineMemeClassification (results : List LabeledScore) : Bool × ℚ :=
  let memeScore := resolvedMemeScore results
  let notMemeScore := resolvedNotMemeScore results
  (decideIsMeme memeScore notMemeScore, memeScore)

/-- The error message thrown when classification is attempted before a
successful load (classify.ts lines 72 and 119): the `ModelNotLoadedError`. -/
def modelNotLoadedMsg : String := "model not loaded. call loadModel() first."

/-- The error message thrown when both backend attempts fail
(classify.ts line 61): the `ModelLoadError`, naming the model identifier. -/
def modelLoadErrorMsg : String := "unable to load model: " ++ HUGGINGFACE_MODEL

/-- `loadModel` (classify.ts lines 22-63). The outcome of each of the two
opaque backend-acquisition calls (`pipeline` with webgpu, `pipeline` with
wasm) is passed as an explicit `Except` parameter. Returns the new module
state, the call result (`ok` or the thrown error message), and the number
of backend-acquisition calls performed. -/
def loadModel (webgpuAttempt wasmAttempt : Except String Handle)
    (s : ModelState) : ModelState × Except String Unit × Nat :=
  if s.classifier.isSome then
    ({ s with modelStatus := ModelStatus.ready }, Except.ok (), 0)
  else
    match webgpuAttempt with
    | Except.ok h =>
        ({ classifier := some h, modelStatus := ModelStatus.ready },
         Except.ok (), 1)
    | Except.error _ =>
        match wasmAttempt with
        | Except.ok h =>
            ({ classifier := some h, modelStatus := ModelStatus.ready },
             Except.ok (), 2)
        | Except.error _ =>
            ({ s with modelStatus := ModelStatus.error },
             Except.error modelLoadErrorMsg, 2)

/-- `getModelStatus` (classify.ts lines 175-178). -/
def getModelStatus (s : ModelState) : ModelStatus := s.modelStatus

/-- `isModelReady` (classify.ts lines 183-187). -/
def isModelReady (s : ModelState) : Bool :=
  s.classifier.isSome && decide (s.modelStatus = ModelStatus.ready)

/-- The possible outcomes of one opaque inference call
(`await classifier(imageUrl)`, classify.ts line 126): it resolves to an
array, resolves to something that is not an array (absent or otherwise
malformed), or throws. -/
inductive InferOutcome where
  | resolved (results : List LabeledScore)
  | notAnArray
  | threw (msg : String)
deriving Repr, DecidableEq

/-- The body of `classifyImage` once the model-loaded precondition has
passed (classify.ts lines 122-168): validate the raw result, apply the
decision algorithm, and fall back to the safe default on malformed output
or on an exception. `elapsed` is the measured wall-clock inference time. -/
def classifyLoaded (outcome : InferOutcome) (elapsed : ℚ) :
    ClassificationResult :=
  match outcome with
  | InferOutcome.resolved results =>
      if results.length = 0 then
        { isMeme := false, confidence := 0, inferenceTimeMs := elapsed }
      else
        let r := determineMemeClassification results
        { isMeme := r.1, confidence := r.2, inferenceTimeMs := elapsed }
  | InferOutcome.notAnArray =>
      { isMeme := false, confidence := 0, inferenceTimeMs := elapsed }
  | InferOutcome.threw _ =>
      { isMeme := false, confidence := 0, inferenceTimeMs := elapsed }

/-- `classifyImage` (classify.ts lines 116-169): throws
`ModelNotLoadedError` when no classifier handle is set, otherwise always
returns a result. -/
def classifyImage (s : ModelState) (outcome : InferOutcome) (elapsed : ℚ) :
    Except String ClassificationResult :=
  if s.classifier.isSome then
    Except.ok (classifyLoaded outcome elapsed)
  else
    Except.error modelNotLoadedMsg

/-- `classifyImageBatch` (classify.ts lines 69-109). Each input image is
paired with the outcome and elapsed time of its inference call;
`allRejects` models the catastrophic failure of the `Promise.all`
concurrent wait itself (in which case the catch block returns one
zero-filled default per input). Returns the call result and the number of
inference calls dispatched. -/
def classifyImageBatch (s : ModelState) (items : List (InferOutcome × ℚ))
    (allRejects : Bool) :
    Except String (List ClassificationResult) × Nat :=
  if !s.classifier.isSome then
    (Except.error modelNotLoadedMsg, 0)
  else if items.length = 0 then
    (Except.ok [], 0)
  else if allRejects then
    (Except.ok (items.map fun _ =>
      { isMeme := false, confidence := 0, inferenceTimeMs := 0 }),
     items.length)
  else
    (Except.ok (items.map fun it => classifyLoaded it.1 it.2), items.length)

/-- The three-branch decision rule as the specification states it, written
from the spec's words for comparison with the source-derived
`decideIsMeme`: branch 1 if `max ≥ 0.8` trust the winner; branch 2 if
`max < 0.6` return true unconditionally; branch 3 otherwise, true when
`|memeScore − notMemeScore| < 0.3`, else trust the winner. -/
def specThreeBranchRule (memeScore notMemeScore : ℚ) : Bool :=
  if max memeScore notMemeScore ≥ 0.8 then
    decide (memeScore > notMemeScore)
  else if max memeScore notMemeScore < 0.6 then
    true
  else if |memeScore - notMemeScore| < 0.3 then
    true
  else
    decide (memeScore > notMemeScore)

/-- C1: for every pair of resolved scores in [0,1], the decision algorithm
computes `isMeme` by the spec's three-branch rule, evaluated in the stated
order. -/
theorem decideIsMeme_eq_specRule (memeScore notMemeScore : ℚ)
    (h0m : 0 ≤ memeScore) (h1m : memeScore ≤ 1)
    (h0n : 0 ≤ notMemeScore) (h1n : notMemeScore ≤ 1) :
    decideIsMeme memeScore notMemeScore =
      specThreeBranchRule memeScore notMemeScore := rfl

/-- Witness for C1: the rule agreement evaluated at the concrete scores
(0.63, 0.37). -/
theorem decideIsMeme_eq_specRule_witness :
    decideIsMeme 0.63 0.37 = specThreeBranchRule 0.63 0.37 :=
  decideIsMeme_eq_specRule 0.63 0.37 (by norm_num) (by norm_num)
    (by norm_num) (by norm_num)

/-- C2: for every raw inference result, the confidence returned by the
decision algorithm equals the resolved meme-class score, regardless of
which branch fired and which class won. -/
theorem confidence_eq_memeScore (results : List LabeledScore) :
    (determineMemeClassification results).2 = resolvedMemeScore results := rfl

/-- C5: at the exact threshold boundaries, winner = 0.8 is handled by the
high-confidence branch, winner = 0.6 by the medium branch's margin
analysis, and margin = 0.3 in the medium band takes the trust-the-winner
path. -/
theorem decideIsMeme_boundaries :
    (∀ m n : ℚ, max m n = 0.8 → decideIsMeme m n = decide (m > n)) ∧
    (∀ m n : ℚ, max m n = 0.6 →
      decideIsMeme m n = if |m - n| < 0.3 then true else decide (m > n)) ∧
    (∀ m n : ℚ, 0.6 ≤ max m n → max m n < 0.8 → |m - n| = 0.3 →
      decideIsMeme m n = decide (m > n)) := by
  refine ⟨fun m n h => ?_, fun m n h => ?_, fun m n h1 h2 h3 => ?_⟩
  · simp only [decideIsMeme, h]
    norm_num
  · simp only [decideIsMeme, h]
    norm_num
  · simp only [decideIsMeme]
    rw [if_neg (by linarith [h2]), if_neg (by linarith [h1]),
      if_neg (by rw [h3]; norm_num)]

/-- Witness for C5: the three boundary behaviors evaluated at the concrete
score pairs (0.8, 0.1), (0.6, 0.5) and (0.7, 0.4). -/
theorem decideIsMeme_boundaries_witness :
    decideIsMeme 0.8 0.1 = true ∧ decideIsMeme 0.6 0.5 = true ∧
      decideIsMeme 0.7 0.4 = true :=
  ⟨(decideIsMeme_boundaries.1 0.8 0.1 (by norm_num)).trans (by norm_num),
   (decideIsMeme_boundaries.2.1 0.6 0.5 (by norm_num)).trans (by norm_num),
   (decideIsMeme_boundaries.2.2 0.7 0.4 (by norm_num) (by norm_num)
     (by norm_num)).trans (by norm_num)⟩

/-- C9: a missing class label resolves that class's score to 0 and the
decision algorithm still produces a result. -/
theorem missing_label_defaults_to_zero (results : List LabeledScore) :
    (findMemeResult results = none →
      resolvedMemeScore results = 0 ∧
      determineMemeClassification results =
        (decideIsMeme 0 (resolvedNotMemeScore results), 0)) ∧
    (findNotMemeResult results = none →
      resolvedNotMemeScore results = 0 ∧
      determineMemeClassification results =
        (decideIsMeme (resolvedMemeScore results) 0,
         resolvedMemeScore results)) := by
  constructor
  · intro h
    have hm : resolvedMemeScore results = 0 := by
      simp [resolvedMemeScore, h]
    exact ⟨hm, by simp [determineMemeClassification, hm]⟩
  · intro h
    have hn : resolvedNotMemeScore results = 0 := by
      simp [resolvedNotMemeScore, h]
    exact ⟨hn, by simp [determineMemeClassification, hn]⟩

/-- Witness for C9: on the raw result `[{label := "not meme", score := 0.9}]`
the meme class has no matching label, its score resolves to 0, and a result
is still produced. -/
theorem missing_label_defaults_to_zero_witness :
    resolvedMemeScore [⟨"not meme", 0.9⟩] = 0 ∧
      determineMemeClassification [⟨"not meme", 0.9⟩] =
        (decideIsMeme 0 (resolvedNotMemeScore [⟨"not meme", 0.9⟩]), 0) :=
  (missing_label_defaults_to_zero [⟨"not meme", 0.9⟩]).1 rfl

/-- C6: when both backend attempts fail and no handle is set, `loadModel`
sets the status to error, throws the `ModelLoadError` (whose message names
the model identifier), leaves the handle unset; and it throws only in this
both-backends-failed case. -/
theorem loadModel_both_backends_fail :
    (∀ (s : ModelState) (e1 e2 : String), s.classifier = none →
      loadModel (Except.error e1) (Except.error e2) s =
        ({ s with modelStatus := ModelStatus.error },
         Except.error modelLoadErrorMsg, 2)) ∧
    (∀ (w1 w2 : Except String Handle) (s : ModelState) (e : String),
      (loadModel w1 w2 s).2.1 = Except.error e →
      s.classifier = none ∧ (∃ e1, w1 = Except.error e1) ∧
        (∃ e2, w2 = Except.error e2) ∧ e = modelLoadErrorMsg ∧
        (loadModel w1 w2 s).1.classifier = none ∧
        (loadModel w1 w2 s).1.modelStatus = ModelStatus.error) ∧
    includesChars HUGGINGFACE_MODEL.data modelLoadErrorMsg.data = true := by
  refine ⟨fun s e1 e2 h => ?_, fun w1 w2 s e h => ?_, by decide⟩
  · simp [loadModel, h]
  · rcases hc : s.classifier with _ | hd
    · cases w1 with
      | ok h1 => simp [loadModel, hc] at h
      | error e1 =>
        cases w2 with
        | ok h2 => simp [loadModel, hc] at h
        | error e2 =>
          have hval : loadModel (Except.error e1) (Except.error e2) s =
              ({ s with modelStatus := ModelStatus.error },
               Except.error modelLoadErrorMsg, 2) := by
            simp [loadModel, hc]
          rw [hval] at h
          refine ⟨rfl, ⟨e1, rfl⟩, ⟨e2, rfl⟩, ?_, by rw [hval]; exact hc,
            by rw [hval]⟩
          injection h with h2
          exact h2.symm
    · simp [loadModel, hc] at h

/-- Witness for C6: at the unloaded state with both attempts failing,
`loadModel` moves the status to error, throws the load error and performs
both acquisition attempts. -/
theorem loadModel_both_backends_fail_witness :
    loadModel (Except.error "no webgpu") (Except.error "no wasm")
        ⟨none, ModelStatus.loading⟩ =
      (⟨none, ModelStatus.error⟩, Except.error modelLoadErrorMsg, 2) :=
  loadModel_both_backends_fail.1 ⟨none, ModelStatus.loading⟩
    "no webgpu" "no wasm" rfl

/-- C7: when a valid handle already exists, `loadModel` returns
immediately with status ready, performs zero backend acquisitions, and
leaves the stored handle unchanged. -/
theorem loadModel_idempotent (s : ModelState) (h : Handle)
    (hs : s.classifier = some h) (w1 w2 : Except String Handle) :
    loadModel w1 w2 s =
      ({ s with modelStatus := ModelStatus.ready }, Except.ok (), 0) ∧
    (loadModel w1 w2 s).1.classifier = some h := by
  constructor
  · simp [loadModel, hs]
  · simp [loadModel, hs]

/-- Witness for C7: a second `loadModel` call on an already-loaded state is
a no-op beyond setting status ready, with zero acquisitions. -/
theorem loadModel_idempotent_witness :
    loadModel (Except.ok ⟨1⟩) (Except.error "no wasm")
        ⟨some ⟨0⟩, ModelStatus.ready⟩ =
      (⟨some ⟨0⟩, ModelStatus.ready⟩, Except.ok (), 0) ∧
    (loadModel (Except.ok ⟨1⟩) (Except.error "no wasm")
        ⟨some ⟨0⟩, ModelStatus.ready⟩).1.classifier = some ⟨0⟩ :=
  loadModel_idempotent ⟨some ⟨0⟩, ModelStatus.ready⟩ ⟨0⟩ rfl
    (Except.ok ⟨1⟩) (Except.error "no wasm")

/-- C3: `classifyImage` throws `ModelNotLoadedError` iff no handle is set;
once loaded it never throws, and on an absent/non-array/empty raw result
or an inference exception it returns the safe default with the measured
elapsed time. -/
theorem classifyImage_throws_iff_not_loaded (s : ModelState)
    (o : InferOutcome) (t : ℚ) :
    ((∃ e, classifyImage s o t = Except.error e) ↔ s.classifier = none) ∧
    (s.classifier = none →
      classifyImage s o t = Except.error modelNotLoadedMsg) ∧
    (s.classifier.isSome →
      classifyImage s o t = Except.ok (classifyLoaded o t) ∧
      ((o = InferOutcome.notAnArray ∨ o = InferOutcome.resolved [] ∨
          ∃ m, o = InferOutcome.threw m) →
        classifyImage s o t =
          Except.ok
            { isMeme := false, confidence := 0, inferenceTimeMs := t })) := by
  rcases hc : s.classifier with _ | h
  · refine ⟨⟨fun _ => rfl, fun _ => ⟨modelNotLoadedMsg, by simp [classifyImage, hc]⟩⟩,
      fun _ => by simp [classifyImage, hc], fun hl => ?_⟩
    simp [hc] at hl
  · refine ⟨⟨fun ⟨e, he⟩ => ?_, fun hn => by simp [hc] at hn⟩,
      fun hn => by simp [hc] at hn, fun _ => ⟨by simp [classifyImage, hc], ?_⟩⟩
    · simp [classifyImage, hc] at he
    · rintro (rfl | rfl | ⟨m, rfl⟩) <;> simp [classifyImage, hc, classifyLoaded]

/-- Witness for C3: with a loaded handle and an inference call that threw,
`classifyImage` returns the safe default with the measured elapsed time. -/
theorem classifyImage_throws_iff_not_loaded_witness :
    classifyImage ⟨some ⟨0⟩, ModelStatus.ready⟩ (InferOutcome.threw "boom") 7 =
      Except.ok { isMeme := false, confidence := 0, inferenceTimeMs := 7 } :=
  ((classifyImage_throws_iff_not_loaded ⟨some ⟨0⟩, ModelStatus.ready⟩
      (InferOutcome.threw "boom") 7).2.2 rfl).2 (Or.inr (Or.inr ⟨"boom", rfl⟩))

/-- C8: with the model loaded, the empty batch returns the empty output
with zero inference calls. -/
theorem classifyImageBatch_empty (s : ModelState)
    (hload : s.classifier.isSome) (allRejects : Bool) :
    classifyImageBatch s [] allRejects = (Except.ok [], 0) := by
  simp [classifyImageBatch, hload]

/-- Witness for C8: the empty batch on a concrete loaded state. -/
theorem classifyImageBatch_empty_witness :
    classifyImageBatch ⟨some ⟨0⟩, ModelStatus.ready⟩ [] false =
      (Except.ok [], 0) :=
  classifyImageBatch_empty ⟨some ⟨0⟩, ModelStatus.ready⟩ rfl false

/-- C4: for every non-empty input with the model loaded, the batch returns
one result per input in input order — the i-th output is exactly what
`classifyImage` returns on the i-th input — and when the concurrent wait
itself fails it returns one safe default per input, preserving cardinality
and order. -/
theorem classifyImageBatch_order_preserving (s : ModelState)
    (items : List (InferOutcome × ℚ)) (allRejects : Bool)
    (hload : s.classifier.isSome) (hne : items ≠ []) :
    ∃ rs, (classifyImageBatch s items allRejects).1 = Except.ok rs ∧
      rs.length = items.length ∧
      (allRejects = false →
        ∀ (i : Nat) (hi : i < items.length) (hi2 : i < rs.length),
          classifyImage s (items.get ⟨i, hi⟩).1 (items.get ⟨i, hi⟩).2 =
            Except.ok (rs.get ⟨i, hi2⟩)) ∧
      (allRejects = true →
        ∀ (i : Nat) (hi2 : i < rs.length),
          rs.get ⟨i, hi2⟩ =
            { isMeme := false, confidence := 0, inferenceTimeMs := 0 }) := by
  have hlen : ¬ items.length = 0 := by
    simpa [List.length_eq_zero] using hne
  cases allRejects with
  | false =>
    refine ⟨items.map fun it => classifyLoaded it.1 it.2, ?_, by simp, ?_,
      by simp⟩
    · simp [classifyImageBatch, hload, hlen]
    · intro _ i hi hi2
      simp [classifyImage, hload, List.getElem_map]
  | true =>
    refine ⟨items.map fun _ =>
        { isMeme := false, confidence := 0, inferenceTimeMs := 0 }, ?_,
      by simp, by simp, ?_⟩
    · simp [classifyImageBatch, hload, hlen]
    · intro _ i hi2
      simp [List.getElem_map]

/-- Witness for C4: a concrete loaded two-item batch where both inference
calls misbehave, instantiating the order- and cardinality-preservation
statement. -/
theorem classifyImageBatch_order_preserving_witness :
    ∃ rs,
      (classifyImageBatch ⟨some ⟨0⟩, ModelStatus.ready⟩
          [(InferOutcome.notAnArray, 1), (InferOutcome.threw "boom", 2)]
          false).1 = Except.ok rs ∧
      rs.length =
        [(InferOutcome.notAnArray, 1),
         (InferOutcome.threw "boom", 2)].length ∧
      (false = false →
        ∀ (i : Nat)
          (hi : i < [(InferOutcome.notAnArray, 1),
            (InferOutcome.threw "boom", 2)].length)
          (hi2 : i < rs.length),
          classifyImage ⟨some ⟨0⟩, ModelStatus.ready⟩
              ([(InferOutcome.notAnArray, 1),
                (InferOutcome.threw "boom", 2)].get ⟨i, hi⟩).1
              ([(InferOutcome.notAnArray, 1),
                (InferOutcome.threw "boom", 2)].get ⟨i, hi⟩).2 =
            Except.ok (rs.get ⟨i, hi2⟩)) ∧
      (false = true →
        ∀ (i : Nat) (hi2 : i < rs.length),
          rs.get ⟨i, hi2⟩ =
            { isMeme := false, confidence := 0, inferenceTimeMs := 0 }) :=
  classifyImageBatch_order_preserving ⟨some ⟨0⟩, ModelStatus.ready⟩
    [(InferOutcome.notAnArray, 1), (InferOutcome.threw "boom", 2)] false
    rfl (by simp)

/-- C10: the model-loaded precondition is checked before the empty-input
check: with no handle set, the empty batch throws `ModelNotLoadedError`
instead of returning the empty sequence. -/
theorem classifyImageBatch_precondition_before_empty (st : ModelStatus)
    (allRejects : Bool) :
    classifyImageBatch ⟨none, st⟩ [] allRejects =
      (Except.error modelNotLoadedMsg, 0) := rfl

end Visagist
